import Mathlib

/-!
Verification of the incremental synchronization engine of
`workers/pull_request_worker/pull_request_worker.py` (class
`GitHubPullRequestWorker`).  Each definition below is a shallow embedding
of a concrete piece of that file; the source line numbers are cited next
to every definition.
-/

/-! ## Record shapes for the pull-request-files differ (lines 228-285)

A fetched row (lines 228-237) is a dict with exactly the keys
`pull_request_id`, `pr_file_additions`, `pr_file_deletions`,
`pr_file_path`, `tool_source`, `tool_version`, `data_source`, `repo_id`.
Integer-valued GitHub fields are modelled as `Int`, string fields as
`String`.  The `dropna(subset=[pull_request_id])` on line 262 is the
identity here because `pull_request_id` comes from the database query on
lines 190-195 and is never null; we give it type `Int` directly. -/

structure FileRow where
  pull_request_id : Int
  pr_file_additions : Int
  pr_file_deletions : Int
  pr_file_path : String
  tool_source : String
  tool_version : String
  data_source : String
  repo_id : Int
deriving DecidableEq, Repr

/-- A persisted row of the `pull_request_files` table as selected by
`SELECT pull_request_files.*` (lines 241-250): the same columns plus the
store-generated primary key `pr_file_id`. -/
structure DbFileRow where
  pr_file_id : Int
  pull_request_id : Int
  pr_file_additions : Int
  pr_file_deletions : Int
  pr_file_path : String
  tool_source : String
  tool_version : String
  data_source : String
  repo_id : Int
deriving DecidableEq, Repr

/-- Equality on the natural-key columns `dupe_columns = [pull_request_id,
pr_file_path]` (line 264), as used by the pandas merges on lines 267-274. -/
def keyMatch (r : FileRow) (t : DbFileRow) : Bool :=
  r.pull_request_id == t.pull_request_id && r.pr_file_path == t.pr_file_path

/-- Equality on the `update_columns = [pr_file_additions,
pr_file_deletions]` (line 265), as used by the second merge on lines
271-274. -/
def updMatch (r : FileRow) (t : DbFileRow) : Bool :=
  r.pr_file_additions == t.pr_file_additions && r.pr_file_deletions == t.pr_file_deletions

/-- Lines 267-269: `need_insertion` is the outer merge of the fetched
frame with the table frame on `dupe_columns`, keeping the `left_only`
rows and projecting back to the fetched columns.  In pandas an outer
merge tags a left row `left_only` exactly when no right row agrees with
it on the merge keys, keeps such a row once, and preserves left order;
the `[table_columns]` projection returns the left (fetched) values. -/
def need_insertion (fetched : List FileRow) (table : List DbFileRow) : List FileRow :=
  fetched.filter (fun r => !(table.any (keyMatch r)))

/-- Lines 271-274: `need_updates` first inner-merges the fetched frame
with the table frame on `dupe_columns` (suffixes `('','_table')`, so the
`[table_columns]` projection keeps the fetched values; one output row per
matching (fetched,table) pair, in left-then-right order), then
outer-merges that result with the table frame on `update_columns` and
keeps the `left_only` rows: the rows whose
`(pr_file_additions, pr_file_deletions)` pair equals that of no table
row at all. -/
def need_updates (fetched : List FileRow) (table : List DbFileRow) : List FileRow :=
  ((fetched.flatMap (fun r => (table.filter (keyMatch r)).map (fun _ => r))).filter
    (fun r => !(table.any (updMatch r))))

/-- The residual class actually realized by the code: the fetched rows
that land in neither `need_insertion` nor `need_updates`; natural key
present in the table and update-column pair equal to that of some
(not necessarily the key-matched) table row. -/
def codeUnchanged (r : FileRow) (table : List DbFileRow) : Bool :=
  table.any (keyMatch r) && table.any (updMatch r)

/-- Modelled from the spec words for the `unchanged`/`skip` partition:
natural key present and the compared update fields identical on the
key-matched destination row.  Kept separate from `codeUnchanged` so the
two notions can be compared. -/
def specUnchanged (r : FileRow) (table : List DbFileRow) : Bool :=
  table.any (fun t => keyMatch r t && updMatch r t)

/-! ### Membership characterizations of the two computed sets -/

theorem mem_need_insertion_iff (fetched : List FileRow) (table : List DbFileRow)
    (r : FileRow) :
    r ∈ need_insertion fetched table ↔ r ∈ fetched ∧ table.any (keyMatch r) = false := by
  simp [need_insertion, List.mem_filter]

theorem mem_need_updates_iff (fetched : List FileRow) (table : List DbFileRow)
    (r : FileRow) :
    r ∈ need_updates fetched table ↔
      (r ∈ fetched ∧ table.any (keyMatch r) = true) ∧ table.any (updMatch r) = false := by
  simp only [need_updates, List.mem_filter, List.mem_flatMap, List.mem_map]
  constructor
  · rintro ⟨⟨a, ha, t, ⟨ht, hk⟩, rfl⟩, hupd⟩
    exact ⟨⟨ha, List.any_eq_true.mpr ⟨t, ht, hk⟩⟩, by simpa using hupd⟩
  · rintro ⟨⟨hmem, hkey⟩, hupd⟩
    obtain ⟨t, ht, hk⟩ := List.any_eq_true.mp hkey
    exact ⟨⟨r, hmem, t, ⟨ht, hk⟩, rfl⟩, by simpa using hupd⟩

/-- Claim C1: if every fetched row has its natural key
`(pull_request_id, pr_file_path)` present in the persisted table with
equal values of the update columns `(pr_file_additions,
pr_file_deletions)`, then both the computed insert set and the computed
update set of the pull-request-files differ are empty: a second run of
the reconciliation against an unchanged dataset performs zero inserts
and zero updates. -/
theorem claim_C1 (fetched : List FileRow) (table : List DbFileRow)
    (h : ∀ r ∈ fetched, ∃ t ∈ table, keyMatch r t = true ∧ updMatch r t = true) :
    need_insertion fetched table = [] ∧ need_updates fetched table = [] := by
  constructor
  · rw [List.eq_nil_iff_forall_not_mem]
    intro r hr
    rw [mem_need_insertion_iff] at hr
    obtain ⟨t, ht, hk, _⟩ := h r hr.1
    have : table.any (keyMatch r) = true := List.any_eq_true.mpr ⟨t, ht, hk⟩
    rw [hr.2] at this
    exact Bool.false_ne_true this
  · rw [List.eq_nil_iff_forall_not_mem]
    intro r hr
    rw [mem_need_updates_iff] at hr
    obtain ⟨t, ht, _, hu⟩ := h r hr.1.1
    have : table.any (updMatch r) = true := List.any_eq_true.mpr ⟨t, ht, hu⟩
    rw [hr.2] at this
    exact Bool.false_ne_true this

/-- A second run over a one-row dataset whose persisted table already
holds the fetched values computes no insert and no update. -/
theorem claim_C1_witness :
    need_insertion
      [⟨3, 10, 2, "src/a.py", "GitHub Pull Request Worker", "1.0.0", "GitHub API", 42⟩]
      [⟨100, 3, 10, 2, "src/a.py", "GitHub Pull Request Worker", "1.0.0", "GitHub API", 42⟩] = []
    ∧ need_updates
      [⟨3, 10, 2, "src/a.py", "GitHub Pull Request Worker", "1.0.0", "GitHub API", 42⟩]
      [⟨100, 3, 10, 2, "src/a.py", "GitHub Pull Request Worker", "1.0.0", "GitHub API", 42⟩] = [] :=
  claim_C1 _ _ (by decide)

/-- Claim C2, as stated, is false: with the sourced definition of the
`unchanged` partition (natural key present, compared update fields
identical on the key-matched row), the three partitions are not
exhaustive.  The fetched row has its key `(1, "a.py")` in the table (row
with pr_file_id 100) but values `(2, 2)` differing from that row's
`(1, 1)`; because `(2, 2)` coincides with the update-column pair of the
unrelated row `(9, "z.py")`, the second merge drops it from
`need_updates` as well, and it is not spec-unchanged either. -/
theorem claim_C2_counterexample :
    need_insertion
      [⟨1, 2, 2, "a.py", "GitHub Pull Request Worker", "1.0.0", "GitHub API", 42⟩]
      [⟨100, 1, 1, 1, "a.py", "GitHub Pull Request Worker", "1.0.0", "GitHub API", 42⟩,
       ⟨101, 9, 2, 2, "z.py", "GitHub Pull Request Worker", "1.0.0", "GitHub API", 42⟩] = []
    ∧ need_updates
      [⟨1, 2, 2, "a.py", "GitHub Pull Request Worker", "1.0.0", "GitHub API", 42⟩]
      [⟨100, 1, 1, 1, "a.py", "GitHub Pull Request Worker", "1.0.0", "GitHub API", 42⟩,
       ⟨101, 9, 2, 2, "z.py", "GitHub Pull Request Worker", "1.0.0", "GitHub API", 42⟩] = []
    ∧ specUnchanged
      ⟨1, 2, 2, "a.py", "GitHub Pull Request Worker", "1.0.0", "GitHub API", 42⟩
      [⟨100, 1, 1, 1, "a.py", "GitHub Pull Request Worker", "1.0.0", "GitHub API", 42⟩,
       ⟨101, 9, 2, 2, "z.py", "GitHub Pull Request Worker", "1.0.0", "GitHub API", 42⟩] = false := by
  refine ⟨?_, ?_, ?_⟩ <;> decide

/-- Claim C2 amended: the classifier realizes a trichotomy with a weaker
third class.  For every fetched row exactly one of the following holds:
it is in `need_insertion` (natural key absent from the table), it is in
`need_updates` (key present and its update-column pair equal to that of
no table row), or it is `codeUnchanged` (key present and update-column
pair equal to that of some table row, not necessarily its key-matched
row).  In particular `need_insertion` and `need_updates` are disjoint. -/
theorem claim_C2_amended (fetched : List FileRow) (table : List DbFileRow)
    (r : FileRow) (h : r ∈ fetched) :
    (r ∈ need_insertion fetched table ∧ r ∉ need_updates fetched table
        ∧ codeUnchanged r table = false)
    ∨ (r ∉ need_insertion fetched table ∧ r ∈ need_updates fetched table
        ∧ codeUnchanged r table = false)
    ∨ (r ∉ need_insertion fetched table ∧ r ∉ need_updates fetched table
        ∧ codeUnchanged r table = true) := by
  simp only [mem_need_insertion_iff, mem_need_updates_iff]
  unfold codeUnchanged
  cases hk : table.any (keyMatch r) with
  | false =>
    exact Or.inl ⟨⟨h, rfl⟩, by simp, by simp⟩
  | true =>
    cases hu : table.any (updMatch r) with
    | false => exact Or.inr (Or.inl ⟨by simp, ⟨⟨h, rfl⟩, rfl⟩, by simp [hu]⟩)
    | true => exact Or.inr (Or.inr ⟨by simp, by simp [hu], rfl⟩)

/-- The trichotomy evaluated on the one-row dataset of the C2
counterexample: the row falls in the `codeUnchanged` class. -/
theorem claim_C2_amended_witness :
    (⟨1, 2, 2, "a.py", "GitHub Pull Request Worker", "1.0.0", "GitHub API", 42⟩ : FileRow) ∈
      need_insertion
        [⟨1, 2, 2, "a.py", "GitHub Pull Request Worker", "1.0.0", "GitHub API", 42⟩]
        [⟨101, 9, 2, 2, "z.py", "GitHub Pull Request Worker", "1.0.0", "GitHub API", 42⟩]
    ∧ ¬(⟨1, 2, 2, "a.py", "GitHub Pull Request Worker", "1.0.0", "GitHub API", 42⟩ : FileRow) ∈
      need_updates
        [⟨1, 2, 2, "a.py", "GitHub Pull Request Worker", "1.0.0", "GitHub API", 42⟩]
        [⟨101, 9, 2, 2, "z.py", "GitHub Pull Request Worker", "1.0.0", "GitHub API", 42⟩]
    ∧ codeUnchanged
        ⟨1, 2, 2, "a.py", "GitHub Pull Request Worker", "1.0.0", "GitHub API", 42⟩
        [⟨101, 9, 2, 2, "z.py", "GitHub Pull Request Worker", "1.0.0", "GitHub API", 42⟩] = false := by
  have := claim_C2_amended
    [⟨1, 2, 2, "a.py", "GitHub Pull Request Worker", "1.0.0", "GitHub API", 42⟩]
    [⟨101, 9, 2, 2, "z.py", "GitHub Pull Request Worker", "1.0.0", "GitHub API", 42⟩]
    ⟨1, 2, 2, "a.py", "GitHub Pull Request Worker", "1.0.0", "GitHub API", 42⟩
    (by decide)
  rcases this with h | h | h
  · exact h
  · exact absurd h.2.1 (by decide)
  · exact absurd h.1 (by decide)

/-- The natural key of a fetched row, for counting duplicate
occurrences. -/
def rowKey (r : FileRow) : Int × String := (r.pull_request_id, r.pr_file_path)

/-- The natural key of a persisted row. -/
def dbRowKey (t : DbFileRow) : Int × String := (t.pull_request_id, t.pr_file_path)

/-- Claim C3, as stated, is false: the classification performs no
within-batch deduplication.  With the same natural key `(1, "a.py")`
occurring twice in the fetched sequence (page-overlap duplicate) and a
persisted table not containing it, `need_insertion` keeps both
occurrences, so the subsequent bulk insert (lines 308-315) produces two
destination rows for that key, and the earlier occurrence is not
superseded by the later one. -/
theorem claim_C3_counterexample :
    need_insertion
      [⟨1, 1, 1, "a.py", "GitHub Pull Request Worker", "1.0.0", "GitHub API", 42⟩,
       ⟨1, 2, 2, "a.py", "GitHub Pull Request Worker", "1.0.0", "GitHub API", 42⟩]
      []
    = [⟨1, 1, 1, "a.py", "GitHub Pull Request Worker", "1.0.0", "GitHub API", 42⟩,
       ⟨1, 2, 2, "a.py", "GitHub Pull Request Worker", "1.0.0", "GitHub API", 42⟩]
    ∧ (need_insertion
        [⟨1, 1, 1, "a.py", "GitHub Pull Request Worker", "1.0.0", "GitHub API", 42⟩,
         ⟨1, 2, 2, "a.py", "GitHub Pull Request Worker", "1.0.0", "GitHub API", 42⟩]
        []).countP (fun r => decide (rowKey r = (1, "a.py"))) = 2 := by
  refine ⟨?_, ?_⟩ <;> decide

/-- Claim C3 amended: duplicate occurrences of a natural key in the
fetched sequence are all kept.  If no persisted row carries key `k`,
then `need_insertion` contains exactly as many rows with key `k` as the
fetched sequence does (each will become its own destination row); no
occurrence supersedes another. -/
theorem claim_C3_amended (fetched : List FileRow) (table : List DbFileRow)
    (k : Int × String) (h : ∀ t ∈ table, dbRowKey t ≠ k) :
    (need_insertion fetched table).countP (fun r => decide (rowKey r = k))
      = fetched.countP (fun r => decide (rowKey r = k)) := by
  unfold need_insertion
  induction fetched with
  | nil => rfl
  | cons a as ih =>
    rw [List.filter_cons]
    by_cases hk : rowKey a = k
    · have hany : table.any (keyMatch a) = false := by
        rw [Bool.eq_false_iff]
        intro hx
        obtain ⟨t, ht, hkm⟩ := List.any_eq_true.mp hx
        apply h t ht
        simp only [keyMatch, Bool.and_eq_true, beq_iff_eq] at hkm
        rw [← hk]
        simp [rowKey, dbRowKey, hkm.1, hkm.2]
      simp [hany, List.countP_cons, hk, ih]
    · cases hany : table.any (keyMatch a) with
      | false => simp [List.countP_cons, hk, ih]
      | true => simp [hany, List.countP_cons, hk, ih]

/-- The amended C3 statement evaluated on the duplicate-fetch pair of the
counterexample: both occurrences of key `(1, "a.py")` are counted into
the insert set. -/
theorem claim_C3_amended_witness :
    (need_insertion
      [⟨1, 1, 1, "a.py", "GitHub Pull Request Worker", "1.0.0", "GitHub API", 42⟩,
       ⟨1, 2, 2, "a.py", "GitHub Pull Request Worker", "1.0.0", "GitHub API", 42⟩]
      []).countP (fun r => decide (rowKey r = (1, "a.py")))
    = [(⟨1, 1, 1, "a.py", "GitHub Pull Request Worker", "1.0.0", "GitHub API", 42⟩ : FileRow),
       ⟨1, 2, 2, "a.py", "GitHub Pull Request Worker", "1.0.0", "GitHub API", 42⟩].countP
        (fun r => decide (rowKey r = (1, "a.py"))) :=
  claim_C3_amended _ [] (1, "a.py") (by intro t ht; exact absurd ht (List.not_mem_nil t))

/-! ## The bulk update statement (lines 287-306)

Lines 276-277 extend every `need_updates` row with copies
`b_pull_request_id` and `b_pr_file_path` of its key columns, and lines
291-302 run, per update row, the SQLAlchemy statement

  table.update().where(c.pull_request_id == bindparam(b_pull_request_id)
      and c.pr_file_path == bindparam(b_pr_file_path))
    .values(pr_file_additions=..., pr_file_deletions=...)

The connective between the two comparisons is the Python keyword `and`,
not the SQL conjunction: Python first evaluates the truthiness of the
left comparison.  A SQLAlchemy `==` between a column and a bindparam
builds a `BinaryExpression` whose `__bool__` compares the hashes of its
two (distinct) operand objects, hence is `False`; `x and y` then returns
`x`.  The statement that reaches the database therefore carries only the
`pull_request_id` condition.  The embedding keeps the expression tree
and this truthiness rule explicit so the dropped conjunct is visible. -/

/-- A column reference of `pull_request_files` usable in the `where`. -/
inductive UpdCol where
  | colPullRequestId
  | colPrFilePath
deriving DecidableEq, Repr

/-- A bindparam reference of an update row. -/
inductive UpdBind where
  | bindPullRequestId
  | bindPrFilePath
deriving DecidableEq, Repr

/-- The SQLAlchemy expression built by `c.<col> == bindparam(<bind>)`. -/
inductive SqlExpr where
  | eqExpr (c : UpdCol) (b : UpdBind)
deriving DecidableEq, Repr

/-- Python truthiness of a SQLAlchemy `BinaryExpression` for the `==`
operator: it compares the hashes of the two operand objects; a column
object and a bindparam object are distinct, so the result is `false`. -/
def sqlExprTruthy : SqlExpr → Bool
  | .eqExpr _ _ => false

/-- The Python `and` of two expression objects: evaluate the truthiness
of the left operand; if falsy, return the left operand, else the right. -/
def pyAnd (a b : SqlExpr) : SqlExpr :=
  if sqlExprTruthy a then b else a

/-- The `where` argument the code builds on lines 292-297. -/
def updateWhereExpr : SqlExpr :=
  pyAnd (.eqExpr .colPullRequestId .bindPullRequestId)
    (.eqExpr .colPrFilePath .bindPrFilePath)

/-- An element of `pr_file_update_rows` (lines 276-280): a
`need_updates` row plus the `b_`-prefixed copies of its key columns. -/
structure UpdateRow where
  row : FileRow
  b_pull_request_id : Int
  b_pr_file_path : String
deriving DecidableEq, Repr

/-- Line 276-277: the `b_` columns are copies of the row's key columns. -/
def mkUpdateRow (r : FileRow) : UpdateRow :=
  { row := r, b_pull_request_id := r.pull_request_id, b_pr_file_path := r.pr_file_path }

/-- A Python-side literal, to compare an Int column with an Int bind and
a String column with a String bind. -/
inductive SqlLit where
  | intLit (n : Int)
  | strLit (s : String)
deriving DecidableEq, Repr

/-- The value of a where-clause column on a persisted row. -/
def colValue (t : DbFileRow) : UpdCol → SqlLit
  | .colPullRequestId => .intLit t.pull_request_id
  | .colPrFilePath => .strLit t.pr_file_path

/-- The value of a bindparam on an update row. -/
def bindValue (u : UpdateRow) : UpdBind → SqlLit
  | .bindPullRequestId => .intLit u.b_pull_request_id
  | .bindPrFilePath => .strLit u.b_pr_file_path

/-- SQL evaluation of the (single-comparison) where expression against a
persisted row and the bindparams of one update row. -/
def evalSqlExpr (e : SqlExpr) (t : DbFileRow) (u : UpdateRow) : Bool :=
  match e with
  | .eqExpr c b => colValue t c == bindValue u b

/-- The `.values(...)` clause (lines 298-301): overwrite exactly
`pr_file_additions` and `pr_file_deletions` of a matched row with the
update row's values. -/
def applyUpdateValues (t : DbFileRow) (u : UpdateRow) : DbFileRow :=
  { t with pr_file_additions := u.row.pr_file_additions,
           pr_file_deletions := u.row.pr_file_deletions }

/-- One executemany step: every persisted row satisfying the where
expression under the current update row's bindparams is overwritten. -/
def applyUpdateRow (table : List DbFileRow) (u : UpdateRow) : List DbFileRow :=
  table.map (fun t => if evalSqlExpr updateWhereExpr t u then applyUpdateValues t u else t)

/-- Lines 291-302: `self.db.execute(update_stmt, pr_file_update_rows)`
is an executemany over the update rows, applied in order. -/
def executeUpdate (table : List DbFileRow) (us : List UpdateRow) : List DbFileRow :=
  us.foldl applyUpdateRow table

/-- Claim C4 is a code bug: the `where` clause that reaches the store
retains only the `pull_request_id` comparison, because the Python `and`
of the two SQLAlchemy comparisons returns its falsy left operand.  On a
table holding two rows of pull request 7 with paths `a.py` and `b.py`,
the single update row targeting `(7, a.py)` with new counts `(10, 11)`
also overwrites the `b.py` row, although that row agrees with the
update row on only one uniqueness column.  (The non-update columns of
both rows are left unchanged, and rows of other pull requests are
untouched: the failure is confined to the dropped path conjunct.) -/
theorem claim_C4_eval :
    updateWhereExpr = .eqExpr .colPullRequestId .bindPullRequestId
    ∧ executeUpdate
        [⟨100, 7, 1, 1, "a.py", "GitHub Pull Request Worker", "1.0.0", "GitHub API", 42⟩,
         ⟨101, 7, 2, 2, "b.py", "GitHub Pull Request Worker", "1.0.0", "GitHub API", 42⟩,
         ⟨102, 8, 3, 3, "a.py", "GitHub Pull Request Worker", "1.0.0", "GitHub API", 42⟩]
        [mkUpdateRow ⟨7, 10, 11, "a.py", "GitHub Pull Request Worker", "1.0.0", "GitHub API", 42⟩]
      = [⟨100, 7, 10, 11, "a.py", "GitHub Pull Request Worker", "1.0.0", "GitHub API", 42⟩,
         ⟨101, 7, 10, 11, "b.py", "GitHub Pull Request Worker", "1.0.0", "GitHub API", 42⟩,
         ⟨102, 8, 3, 3, "a.py", "GitHub Pull Request Worker", "1.0.0", "GitHub API", 42⟩] := by
  refine ⟨rfl, ?_⟩
  decide

/-! ## The backward GraphQL paginator `graphql_paginate` (lines 61-184)

The remote endpoint is abstracted as an oracle mapping the index of each
`requests.post` call (line 119) to the JSON envelope it returns; the
payload of one edge is opaque (`Edge := Nat`).  Three envelope shapes
occur in the source: a dict with an `errors` list (line 129; only the
first error's `type` matters), a dict with `data` (line 143; after
`find_root_of_subject` it yields the requested field's `pageInfo` and
`edges`), and any other dict, read through its `message` (lines
150-164).  Exceptions that the Python code would raise are modelled as
`PyErr` values; `fuelOut` is a modelling artifact marking exhaustion of
the explicit fuel that bounds the (potentially unbounded) `while` loop
and the recursion, never reached in any run considered below. -/

abbrev Edge := Nat

/-- One envelope returned by the GraphQL endpoint. -/
inductive GqlResponse where
  | errorsResp (errType : String)
  | dataResp (edges : List Edge) (hasPreviousPage : Bool) (startCursor : String)
  | messageResp (msg : String)
deriving DecidableEq, Repr

/-- A Python exception escaping the paginator, plus the fuel marker. -/
inductive PyErr where
  | keyError (k : String)
  | nameError (n : String)
  | attributeError
  | typeError
  | fuelOut
deriving DecidableEq, Repr

/-- The `data_subjects` argument: a Python value that is either a dict
whose values are again such values, or `None` (the call on line 237
passes the dict with the single entry `files ↦ None`). -/
inductive SubjVal where
  | pyNone : SubjVal
  | subjDict : List (String × SubjVal) → SubjVal

/-- Python truthiness of a `data_subjects` value (`if not nest`, line
180): `None` and the empty dict are falsy, a non-empty dict is truthy. -/
def subjTruthy : SubjVal → Bool
  | .pyNone => false
  | .subjDict entries => !entries.isEmpty

mutual

/-- Lines 71-77, `all_items`: yield each (key, value) pair of the dict
in order and recurse into dict values right after yielding them. -/
def allItems : List (String × SubjVal) → List (String × SubjVal)
  | [] => []
  | (k, v) :: rest => (k, v) :: (allItemsVal v ++ allItems rest)

/-- The recursion of `all_items` into one value: dicts flatten, other
values contribute nothing further. -/
def allItemsVal : SubjVal → List (String × SubjVal)
  | .pyNone => []
  | .subjDict entries => allItems entries

end

/-- Python dict lookup `data_subjects[subject]` (line 183): a missing
key raises `KeyError`. -/
def lookupSubj : List (String × SubjVal) → String → Option SubjVal
  | [], _ => none
  | (k0, v0) :: rest, k => if k0 = k then some v0 else lookupSubj rest k

/-- Python `dict.update({k: v})` (lines 170-172) on the
`before_parameters` dict: replace the binding of `k` or append it. -/
def setParam : List (String × String) → String → String → List (String × String)
  | [], k, v => [(k, v)]
  | (k0, v0) :: rest, k, v =>
      if k0 = k then (k, v) :: rest else (k0, v0) :: setParam rest k v

/-- The successful outcome of the attempt loop: the requested field's
`pageInfo` fields and its `edges` (lines 144-148). -/
structure PageData where
  edges : List Edge
  hasPreviousPage : Bool
  startCursor : String
deriving DecidableEq, Repr

/-- Lines 112-164, the attempt loop `for attempt in range(num_attempts)`
with `num_attempts = 3`.  `range(3)` is evaluated once, so the
`num_attempts -= 1` statements on lines 139 and 161 never change the
number of iterations (nothing reads `num_attempts` afterwards).  Per
attempt one request is issued; then

  - an `errors` envelope of type `NOT_FOUND` breaks out with
    `success = False` (line 136);
  - any other `errors` envelope — `RATE_LIMITED` included, after its
    back-off call — continues with the next attempt (line 140);
  - a `data` envelope succeeds and breaks (lines 143-148);
  - a `message` envelope equal to `Not Found` breaks with
    `success = False` (line 156); the abuse-detection and
    bad-credentials messages fall through to the next attempt.

The result is the page on success or `none`, together with the next
request index and the number of loop iterations left unused. -/
def attemptsLoop (oracle : Nat → GqlResponse) : Nat → Nat → Option PageData × Nat × Nat
  | 0, reqIdx => (none, reqIdx, 0)
  | left + 1, reqIdx =>
    match oracle reqIdx with
    | .dataResp e h c => (some ⟨e, h, c⟩, reqIdx + 1, left)
    | .errorsResp t =>
        if t = "NOT_FOUND" then (none, reqIdx + 1, left)
        else attemptsLoop oracle left (reqIdx + 1)
    | .messageResp m =>
        if m = "Not Found" then (none, reqIdx + 1, left)
        else attemptsLoop oracle left (reqIdx + 1)

/-- Lines 108-175, the `while has_previous_page` loop for one data
subject, entered with `has_previous_page = True` (line 85).  Each
iteration runs the attempt loop; without success the loop breaks (lines
166-168), leaving the tuples collected so far; on success it records the
field's next before-cursor (lines 170-172), updates
`has_previous_page` (line 173) and appends the page's edges (line 175).
Returns the accumulated tuples, the updated before-parameters and the
next request index. -/
def pagesLoop (oracle : Nat → GqlResponse) :
    Nat → Nat → List (String × String) → String → List Edge →
    Except PyErr (List Edge × List (String × String) × Nat)
  | 0, _, _, _, _ => .error .fuelOut
  | wfuel + 1, reqIdx, params, subjectKey, tuples =>
    match attemptsLoop oracle 3 reqIdx with
    | (none, reqIdx2, _) => .ok (tuples, params, reqIdx2)
    | (some pd, reqIdx2, _) =>
        let params2 := setParam params subjectKey (", before: \"" ++ pd.startCursor ++ "\"")
        let tuples2 := tuples ++ pd.edges
        if pd.hasPreviousPage then
          pagesLoop oracle wfuel reqIdx2 params2 subjectKey tuples2
        else
          .ok (tuples2, params2, reqIdx2)

/-- Lines 61-184, `graphql_paginate`.  Stateful details kept explicit:

  - lines 79-82: when `before_parameters` is not supplied it is
    initialized from `all_items(data_subjects)`, and the loop variable
    `subject` leaks with the *last* yielded key; when it is supplied the
    loop does not run and `subject` stays unbound in this frame, so a
    later read of it raises `NameError`;
  - `data_subjects.items()` on a non-dict raises `AttributeError`;
  - the `for data_subject, nest in data_subjects.items()` body
    unconditionally returns during its first iteration (lines 180-184),
    so only the first entry is ever processed and an empty dict falls
    off the loop returning Python `None` (modelled `Option.none`);
  - line 183 recurses on `data_subjects[subject]` — the leaked key
    looked up in the *top-level* dict — passing the accumulated
    before-parameters; `tuples + <recursive result>` raises `TypeError`
    when the recursive call returned `None`.

The pair returned is the outcome and the next request index, i.e. the
total number of requests issued when started at index 0. -/
def graphql_paginate (oracle : Nat → GqlResponse) :
    Nat → Nat → SubjVal → Option (List (String × String)) →
    Except PyErr (Option (List Edge)) × Nat
  | 0, reqIdx, _, _ => (.error .fuelOut, reqIdx)
  | fuel + 1, reqIdx, dataSubjects, beforeParams0 =>
    match dataSubjects with
    | .pyNone => (.error .attributeError, reqIdx)
    | .subjDict entries =>
      let params : List (String × String) :=
        match beforeParams0 with
        | none => (allItems entries).map (fun kv => (kv.1, ""))
        | some ps => ps
      let leakedSubject : Option String :=
        match beforeParams0 with
        | none => ((allItems entries).map Prod.fst).getLast?
        | some _ => none
      match entries with
      | [] => (.ok none, reqIdx)
      | (dataSubject, nest) :: _ =>
        match pagesLoop oracle (fuel + 1) reqIdx params dataSubject [] with
        | .error e => (.error e, reqIdx)
        | .ok (tuples, params2, reqIdx2) =>
          if subjTruthy nest then
            match leakedSubject with
            | none => (.error (.nameError "subject"), reqIdx2)
            | some subj =>
              match lookupSubj entries subj with
              | none => (.error (.keyError subj), reqIdx2)
              | some sv =>
                match graphql_paginate oracle fuel reqIdx2 sv (some params2) with
                | (.ok (some recEdges), reqIdx3) => (.ok (some (tuples ++ recEdges)), reqIdx3)
                | (.ok none, reqIdx3) => (.error .typeError, reqIdx3)
                | (.error e, reqIdx3) => (.error e, reqIdx3)
          else
            (.ok (some tuples), reqIdx2)

/-- Claim C5 is a code bug: on a query with a nested paginated
sub-field, `data_subjects = {files: {comments: None}}`, exhausting the
outer `files` field (a single page here) reaches the recursion of line
183, which evaluates `data_subjects[subject]` with `subject` holding the
*innermost* key leaked by the before-parameters initialization loop of
lines 81-82 (`comments`) — a key the top-level dict does not have.  The
call raises `KeyError` after its one request instead of recursing into
the sub-field and returning the concatenated records.  (A flat
multi-field dict fails differently: the unconditional `return tuples` of
line 181 drops every sibling field after the first.) -/
theorem claim_C5_eval :
    graphql_paginate (fun _ => .dataResp [7] false "c0") 10 0
      (.subjDict [("files", .subjDict [("comments", .pyNone)])]) none
    = (.error (.keyError "comments"), 1) := by
  rfl

/-- Claim C6: for the single-field query of the call site (line 237)
and a source whose three successive pages report
`hasPreviousPage = true, true, false`, the paginator issues exactly 3
requests, halts after the third, and returns the edges of the three
pages concatenated in fetch order. -/
theorem claim_C6 (e1 e2 e3 : List Edge) (c1 c2 c3 : String) :
    graphql_paginate
      (fun i => if i = 0 then .dataResp e1 true c1
                else if i = 1 then .dataResp e2 true c2
                else .dataResp e3 false c3)
      10 0 (.subjDict [("files", .pyNone)]) none
    = (.ok (some (e1 ++ e2 ++ e3)), 3) := by
  rfl

/-- A remote source that answers the first `k` requests with a
`RATE_LIMITED` errors envelope and every later request with a final
page. -/
def rateLimitedThen (k : Nat) (e : List Edge) (c : String) : Nat → GqlResponse :=
  fun i => if i < k then .errorsResp "RATE_LIMITED" else .dataResp e false c

/-- Claim C7, as stated, is false: rate-limited responses do consume the
single `range(3)` attempt budget of the page loop.  Three rate-limited
responses followed by a success exhaust the loop and the page is
abandoned (`none`) — the fetch is not performed at all; and already one
rate-limited response leaves 1 unused attempt instead of the 2 an
unthrottled run keeps. -/
theorem claim_C7_counterexample :
    attemptsLoop (rateLimitedThen 3 [5] "cur") 3 0 = (none, 3, 0)
    ∧ attemptsLoop (rateLimitedThen 0 [5] "cur") 3 0 = (some ⟨[5], false, "cur"⟩, 1, 2)
    ∧ attemptsLoop (rateLimitedThen 1 [5] "cur") 3 0 = (some ⟨[5], false, "cur"⟩, 2, 1) := by
  refine ⟨?_, ?_, ?_⟩ <;> rfl

/-- Claim C7 amended: a rate-limited response triggers the back-off call
and a retry, but the retry consumes the same fixed 3-attempt budget as a
genuine transient error.  With `k ≤ 2` rate-limited responses followed
by success the page is still fetched, at the cost of `k` attempts: the
run ends with `2 - k` attempts unused (an unthrottled run keeps 2); with
three or more rate-limited responses the page is abandoned. -/
theorem claim_C7_amended (k : Nat) (h : k ≤ 2) (e : List Edge) (c : String) :
    attemptsLoop (rateLimitedThen k e c) 3 0 = (some ⟨e, false, c⟩, k + 1, 2 - k) := by
  interval_cases k <;> rfl

/-- The amended C7 statement at `k = 2`: the fetch still happens on the
last attempt of the budget, with no attempt left unused. -/
theorem claim_C7_amended_witness :
    attemptsLoop (rateLimitedThen 2 [5] "cur") 3 0 = (some ⟨[5], false, "cur"⟩, 3, 0) :=
  claim_C7_amended 2 (by decide) [5] "cur"

/-! ## Python name resolution for `is_nan` (lines 1-18, 58-59) and the
contributor-id ternaries (lines 459-461, 680-682, 866-868)

`is_nan` is defined on lines 58-59 as a function in the *class body* of
`GitHubPullRequestWorker` (without `self`).  Python resolves a bare name
inside a method body through the local, enclosing-function, module and
builtin scopes; a class body is not an enclosing scope for the methods
defined in it, so the bare `is_nan` in the row-building expressions
resolves through the module globals and builtins only.  The module
globals are exactly the names bound by the import block of lines 1-18
plus the class name; `math` is not imported anywhere. -/

/-- The names bound at module level by lines 1-18 and line 20. -/
def moduleGlobals : List String :=
  ["ast", "json", "logging", "os", "sys", "time", "traceback",
   "WorkerGitInterfaceable", "source", "requests", "copy", "datetime",
   "Process", "Queue", "pd", "s", "bindparam", "Worker",
   "GitHubPullRequestWorker"]

/-- The Python builtins the worker's row-building code could reach
(neither `is_nan` nor `math` is a builtin). -/
def relevantBuiltins : List String :=
  ["int", "float", "str", "len", "type", "range", "set", "list", "dict",
   "enumerate", "isinstance"]

/-- Whether a bare name inside one of the row-building expressions
resolves: the expressions bind no local of that name, so only module
globals and builtins remain. -/
def methodScopeHas (n : String) : Bool :=
  moduleGlobals.contains n || relevantBuiltins.contains n

/-- A Python value as it occurs in the `cntrb_id` slot: `None`, a float
NaN, an int, a string, or a bool. -/
inductive PyV where
  | pyNone
  | pyNan
  | pyInt (n : Int)
  | pyStr (s : String)
  | pyBool (b : Bool)
deriving DecidableEq, Repr

/-- Python truthiness: `None` is falsy, NaN is a nonzero float and hence
truthy, numbers are truthy when nonzero, strings when nonempty. -/
def pyTruthy : PyV → Bool
  | .pyNone => false
  | .pyNan => true
  | .pyInt n => n != 0
  | .pyStr s => !s.isEmpty
  | .pyBool b => b

/-- Whether `type(value) == float` holds for a modelled value (line 59):
of the shapes above only NaN is a float here. -/
def pyTypeIsFloat : PyV → Bool
  | .pyNan => true
  | _ => false

/-- Lines 58-59, the body of `is_nan` as it would run if the name ever
resolved: `type(value) == float and math.isnan(value)`.  The `and`
short-circuits, so the never-imported `math` is only touched — raising
`NameError` — when the argument is a float. -/
def isNanBody (v : PyV) : Except PyErr PyV :=
  if pyTypeIsFloat v then
    if methodScopeHas "math" then .ok (.pyBool true) else .error (.nameError "math")
  else .ok (.pyBool false)

/-- The contributor-id expression shared by lines 459-461 (`pr_augur_contributor_id`
in `_get_pk_source_prs`), 680-682 (`cntrb_id` in
`pull_request_comments_model`) and 866-868 (`cntrb_id` in
`pull_request_events_model`):

  record[cntrb_id] if record[cntrb_id] else is_nan(record[cntrb_id])

A truthy id is used as is; a falsy one evaluates the bare name `is_nan`,
which is not in scope inside the method, raising `NameError` before the
body could run. -/
def mkCntrbField (v : PyV) : Except PyErr PyV :=
  if pyTruthy v then .ok v
  else if methodScopeHas "is_nan" then isNanBody v
  else .error (.nameError "is_nan")

/-- Claim C10, as stated, is false for NaN: a float NaN is *truthy* in
Python, so a record whose resolved `cntrb_id` is NaN takes the truthy
branch of the ternary — the NaN is written into the insert row as is and
`is_nan` is never evaluated, so no `NameError` is raised for it. -/
theorem claim_C10_counterexample :
    mkCntrbField .pyNan = .ok .pyNan ∧ pyTruthy .pyNan = true := by
  exact ⟨rfl, rfl⟩

/-- Claim C10 amended: for every record whose resolved `cntrb_id` is
null, zero, or otherwise *falsy* — NaN excluded, being a truthy float —
constructing the insert row evaluates the bare name `is_nan`; that name
is defined only in the class body, which Python does not consult from a
method, and is in neither the module globals of lines 1-18 nor the
builtins, so building the row raises `NameError` instead of producing a
null contributor id.  Moreover even a resolvable `is_nan` would raise
`NameError` on its first float argument, since its body reads the
never-imported `math` module. -/
theorem claim_C10_amended :
    (∀ v : PyV, pyTruthy v = false → mkCntrbField v = .error (.nameError "is_nan"))
    ∧ methodScopeHas "is_nan" = false
    ∧ isNanBody .pyNan = .error (.nameError "math") := by
  refine ⟨?_, by decide, rfl⟩
  intro v hv
  simp [mkCntrbField, hv, show methodScopeHas "is_nan" = false by decide]

/-- The amended C10 statement at the concrete falsy ids `None` and `0`:
row construction raises `NameError` for both. -/
theorem claim_C10_amended_witness :
    mkCntrbField .pyNone = .error (.nameError "is_nan")
    ∧ mkCntrbField (.pyInt 0) = .error (.nameError "is_nan") :=
  ⟨claim_C10_amended.1 .pyNone (by decide), claim_C10_amended.1 (.pyInt 0) (by decide)⟩

/-! ## The events insert comprehension (lines 853-884 of
`pull_request_events_model`) -/

/-- An enriched event record as it reaches the comprehension of lines
863-884: the columns selected on lines 837-839 plus the `cntrb_id`
annotation that the identity-enrichment step may or may not have
produced a usable value for.  The `actor` field is the raw GitHub actor
object, `none` standing for JSON null. -/
structure PrEvent where
  id : Int
  pull_request_id : Int
  node_id : String
  url : String
  actor : Option String
  created_at : PyV
  event : String
  commit_id : String
  cntrb_id : PyV
deriving DecidableEq, Repr

/-- A row of the `pr_events_insert` list (lines 863-884). -/
structure PrEventRow where
  pull_request_id : Int
  cntrb_id : PyV
  action : String
  action_commit_hash : String
  created_at : PyV
  issue_event_src_id : Int
  node_id : String
  node_url : String
  tool_source : String
  tool_version : String
  data_source : String
  pr_platform_event_id : Int
  platform_id : Int
  repo_id : Int
deriving DecidableEq, Repr

/-- The row dict of lines 864-883 for one event, including the
`cntrb_id` ternary of lines 866-868 (which raises `NameError` on a
falsy contributor id, see `mkCntrbField`) and the `created_at` ternary
of lines 871-873. -/
def mkPrEventRow (repoId : Int) (e : PrEvent) : Except PyErr PrEventRow :=
  match mkCntrbField e.cntrb_id with
  | .error err => .error err
  | .ok c =>
    .ok { pull_request_id := e.pull_request_id
          cntrb_id := c
          action := e.event
          action_commit_hash := e.commit_id
          created_at := if pyTruthy e.created_at then e.created_at else .pyNone
          issue_event_src_id := e.id
          node_id := e.node_id
          node_url := e.url
          tool_source := "GitHub Pull Request Worker"
          tool_version := "1.0.0"
          data_source := "GitHub API"
          pr_platform_event_id := e.id
          platform_id := 25150
          repo_id := repoId }

/-- Lines 863-884: the comprehension
`[{...} for event in pk_pr_events if event[actor] is not None]`.
Python evaluates the filter first and builds the element dict only for
events whose actor is not null; the first exception raised while
building an element aborts the whole list (and with it the batch). -/
def pr_events_insert (repoId : Int) : List PrEvent → Except PyErr (List PrEventRow)
  | [] => .ok []
  | e :: rest =>
    if e.actor.isSome then
      match mkPrEventRow repoId e with
      | .error err => .error err
      | .ok row =>
        match pr_events_insert repoId rest with
        | .error err => .error err
        | .ok rows => .ok (row :: rows)
    else pr_events_insert repoId rest

/-- The row an event with a truthy contributor id maps to; used to state
what the comprehension produces for the records it keeps. -/
def pureEventRow (repoId : Int) (e : PrEvent) : PrEventRow :=
  { pull_request_id := e.pull_request_id
    cntrb_id := e.cntrb_id
    action := e.event
    action_commit_hash := e.commit_id
    created_at := if pyTruthy e.created_at then e.created_at else .pyNone
    issue_event_src_id := e.id
    node_id := e.node_id
    node_url := e.url
    tool_source := "GitHub Pull Request Worker"
    tool_version := "1.0.0"
    data_source := "GitHub API"
    pr_platform_event_id := e.id
    platform_id := 25150
    repo_id := repoId }

/-- Claim C8, as stated, is false: a record whose actor is null is not
annotated and passed through — the filter `if event[actor] is not None`
of line 883 drops it from the insert list.  For the one-record batch
below (null actor, usable contributor id) the output is empty, so it
does not contain every input record. -/
theorem claim_C8_counterexample :
    pr_events_insert 42
      [⟨900, 7, "n1", "u1", none, .pyStr "2021-01-01", "closed", "sha1", .pyInt 5⟩]
      = .ok []
    ∧ [(⟨900, 7, "n1", "u1", none, .pyStr "2021-01-01", "closed", "sha1", .pyInt 5⟩ : PrEvent)].length = 1 := by
  exact ⟨rfl, rfl⟩

/-- Claim C8 amended: a null-actor record does not fail the batch, but
neither is it passed through — it is silently excluded.  Provided every
retained record carries a truthy contributor id (a falsy one would raise
`NameError`, see C10), the insert list consists of exactly one row per
input record whose actor is non-null, in order. -/
theorem claim_C8_amended (repoId : Int) (events : List PrEvent)
    (h : ∀ e ∈ events, e.actor.isSome → pyTruthy e.cntrb_id = true) :
    pr_events_insert repoId events
      = .ok ((events.filter (fun e => e.actor.isSome)).map (pureEventRow repoId)) := by
  induction events with
  | nil => rfl
  | cons e rest ih =>
    rw [List.filter_cons]
    by_cases ha : e.actor.isSome
    · have hc : pyTruthy e.cntrb_id = true := h e (List.mem_cons_self e rest) ha
      have hrow : mkPrEventRow repoId e = .ok (pureEventRow repoId e) := by
        simp [mkPrEventRow, mkCntrbField, hc, pureEventRow]
      have ihh := ih (fun x hx => h x (List.mem_cons_of_mem e hx))
      simp [pr_events_insert, ha, hrow, ihh]
    · have ihh := ih (fun x hx => h x (List.mem_cons_of_mem e hx))
      simp [pr_events_insert, ha, ihh]

/-- The amended C8 statement on a two-record batch: the null-actor
record is dropped, the other becomes the single insert row. -/
theorem claim_C8_amended_witness :
    pr_events_insert 42
      [⟨900, 7, "n1", "u1", none, .pyStr "2021-01-01", "closed", "sha1", .pyInt 5⟩,
       ⟨901, 7, "n2", "u2", some "alice", .pyStr "2021-01-02", "merged", "sha2", .pyInt 6⟩]
      = .ok [pureEventRow 42
          ⟨901, 7, "n2", "u2", some "alice", .pyStr "2021-01-02", "merged", "sha2", .pyInt 6⟩] :=
  claim_C8_amended 42 _ (by decide)

/-! ## Sub-model orchestration (lines 588-625) and the nested-data loop
(lines 1209-1390) -/

/-- The statement shapes occurring in the orchestration block of
`pull_requests_model`: a sub-model call (which may raise), an empty
statement, and `try: body except Exception: pass finally: fin` — the
handler in the source only logs and `pass`es, so it is not represented
separately. -/
inductive Stmt where
  | callStep (name : String)
  | skip
  | tryExceptFinally (body fin : Stmt)

/-- Execution of a statement given, for each sub-model name, whether its
call raises: returns the ordered trace of attempted calls and whether
the statement as a whole raises.  `tryExceptFinally` swallows the body's
exception (the `except ... pass` arm), then always runs the `finally`
block, whose own outcome is the statement's. -/
def execStmt (beh : String → Bool) : Stmt → List String × Bool
  | .callStep n => ([n], beh n)
  | .skip => ([], false)
  | .tryExceptFinally body fin =>
      let tb := (execStmt beh body).1
      let rf := execStmt beh fin
      (tb ++ rf.1, rf.2)

/-- Lines 589-625 of `pull_requests_model`: the comments, events,
reviews and nested-data sub-models, chained as
`try comments except pass finally (try events except pass finally
(try reviews except pass finally (try nested except pass finally log)))`. -/
def pullRequestsModelBlock : Stmt :=
  .tryExceptFinally (.callStep "comments")
    (.tryExceptFinally (.callStep "events")
      (.tryExceptFinally (.callStep "reviews")
        (.tryExceptFinally (.callStep "nested") .skip)))

/-- Lines 1209-1390, the `while (pr_nested_loop < 5)` dispatch inside
`pull_request_nested_data_model`.  Every branch *first* increments
`pr_nested_loop` and only then runs its step body (labels = 1,
reviewers = 2, assignees = 3, meta = 4); an exception from the body is
caught by the `except` of line 1386 whose `continue` resumes the loop,
which then dispatches on the already-incremented counter.  The step
outcome `beh l` is therefore recorded but cannot change control flow.
The loop variable starts at 1 (line 1209); a start below 1 would match
no branch and loop forever, which the explicit fuel makes visible
(`none`).  The trace records each attempted step together with whether
its body raised. -/
def nestedDataLoop (beh : Nat → Bool) : Nat → Nat → Option (List (Nat × Bool))
  | 0, _ => none
  | fuel + 1, l =>
    if l < 5 then
      if 1 ≤ l ∧ l ≤ 4 then
        match nestedDataLoop beh fuel (l + 1) with
        | some rest => some ((l, beh l) :: rest)
        | none => none
      else nestedDataLoop beh fuel l
    else some []

/-- Claim C9: failure isolation holds on both levels.  Whatever raises,
the orchestration block of `pull_requests_model` attempts the comments,
events, reviews and nested-data sub-models each exactly once, in order —
in particular a raising reviews sub-model does not prevent the others —
and the nested-data dispatch loop, started at 1, attempts the labels,
reviewers, assignees and meta steps each exactly once, in order,
whatever subset of them raises. -/
theorem claim_C9 (beh : String → Bool) (nbeh : Nat → Bool) :
    (execStmt beh pullRequestsModelBlock).1 = ["comments", "events", "reviews", "nested"]
    ∧ nestedDataLoop nbeh 5 1
        = some [(1, nbeh 1), (2, nbeh 2), (3, nbeh 3), (4, nbeh 4)] := by
  constructor
  · rfl
  · rfl
